import Mathlib

/-!
Shallow embedding of the pipewire format-negotiation core of kdchambers/reel.

Source files embedded here:
- `src/screencapture/pipewire/pipewire_stream_extra.c` — the broad-RGB
  desktop-capture variant: `SupportedPixelFormat`, `StreamFormat`,
  `parseStreamFormat` (with its if-chain mapping spa video-format ids to the
  internal enum) and `buildPipewireParams`.
- `src/screencapture_backends/pipewire/pipewire_stream_extra.c` — the narrower
  variant: its `StreamFormat` carries the raw `enum spa_video_format` value and
  its `parseStreamFormat` copies the server id unchanged.

A received `struct spa_pod` is modelled by `SpaPod`: the outcome of
`spa_format_parse` (success flag plus the media type/subtype it reports), the
outcome of `spa_format_video_raw_parse` (a success flag plus the `format`,
`size.width`, `size.height` fields the call leaves in `info_raw` — on failure
these model whatever the uninitialised struct happens to hold), all scalars.
Machine integers carry no arithmetic here (values are only copied and compared
for equality), so `uint32_t` fields are embedded as `Nat`.
-/

namespace Reel

/-- Value of `SPA_MEDIA_TYPE_audio` from `spa/param/param.h`. -/
def SPA_MEDIA_TYPE_audio : Nat := 1

/-- Value of `SPA_MEDIA_TYPE_video` from `spa/param/param.h`. -/
def SPA_MEDIA_TYPE_video : Nat := 2

/-- Value of `SPA_MEDIA_SUBTYPE_raw` from `spa/param/param.h`. -/
def SPA_MEDIA_SUBTYPE_raw : Nat := 1

/-- Value of `SPA_VIDEO_FORMAT_I420` from `spa/param/video/raw.h`. -/
def SPA_VIDEO_FORMAT_I420 : Nat := 2

/-- Value of `SPA_VIDEO_FORMAT_YUY2` from `spa/param/video/raw.h`. -/
def SPA_VIDEO_FORMAT_YUY2 : Nat := 4

/-- Value of `SPA_VIDEO_FORMAT_RGBx` from `spa/param/video/raw.h`. -/
def SPA_VIDEO_FORMAT_RGBx : Nat := 7

/-- Value of `SPA_VIDEO_FORMAT_BGRx` from `spa/param/video/raw.h`. -/
def SPA_VIDEO_FORMAT_BGRx : Nat := 8

/-- Value of `SPA_VIDEO_FORMAT_RGBA` from `spa/param/video/raw.h`. -/
def SPA_VIDEO_FORMAT_RGBA : Nat := 11

/-- Value of `SPA_VIDEO_FORMAT_BGRA` from `spa/param/video/raw.h`. -/
def SPA_VIDEO_FORMAT_BGRA : Nat := 12

/-- Value of `SPA_VIDEO_FORMAT_RGB` from `spa/param/video/raw.h`. -/
def SPA_VIDEO_FORMAT_RGB : Nat := 15

/-- Value of `SPA_VIDEO_FORMAT_BGR` from `spa/param/video/raw.h`. -/
def SPA_VIDEO_FORMAT_BGR : Nat := 16

/-- Model of an inbound `const struct spa_pod *param` as `parseStreamFormat`
observes it through the two spa parse calls it makes:
`header_ok` is true iff `spa_format_parse` returns `>= 0`; `media_type` and
`media_subtype` are the values it stores through its out-pointers;
`payload_ok` is true iff `spa_format_video_raw_parse` returns `>= 0` (the C
code never reads this return value); `raw_format`, `raw_width`, `raw_height`
are the `format` and `size` fields found in `info_raw` after that call — when
`payload_ok` is false they stand for the garbage the uninitialised stack
struct holds. -/
structure SpaPod where
  header_ok : Bool
  media_type : Nat
  media_subtype : Nat
  payload_ok : Bool
  raw_format : Nat
  raw_width : Nat
  raw_height : Nat
deriving DecidableEq

/-- The `SupportedPixelFormat` enum of the screencapture variant
(`pipewire_stream_extra.c` lines 17-24). The first constructor `RGBA`
corresponds to the C enum value `0`. -/
inductive SupportedPixelFormat
  | RGBA
  | RGBX
  | RGB
  | BGRA
  | BGRX
  | BGR
deriving DecidableEq, Fintype

/-- The `StreamFormat` struct of the screencapture variant
(`pipewire_stream_extra.c` lines 26-31). -/
structure StreamFormat where
  format : SupportedPixelFormat
  width : Nat
  height : Nat
  padding : Nat
deriving DecidableEq

/-- The zero-initialised `StreamFormat result = {0, 0, 0, 0}` of
`parseStreamFormat` (lines 35-40): the C enum value `0` is
`SUPPORTED_PIXEL_FORMAT_RGBA`. -/
def zeroStreamFormat : StreamFormat :=
  { format := SupportedPixelFormat.RGBA, width := 0, height := 0, padding := 0 }

/-- The if-chain of `parseStreamFormat` (screencapture variant, lines 63-74)
that maps the server's `info_raw.format` id onto `result.format`; `cur` is the
value `result.format` holds before the chain (its zero initialisation), kept
unchanged when no branch matches — the C has no final `else`. -/
def mapChain (fmt : Nat) (cur : SupportedPixelFormat) : SupportedPixelFormat :=
  if fmt = SPA_VIDEO_FORMAT_RGB then SupportedPixelFormat.RGB
  else if fmt = SPA_VIDEO_FORMAT_RGBA then SupportedPixelFormat.RGBA
  else if fmt = SPA_VIDEO_FORMAT_RGBx then SupportedPixelFormat.RGBX
  else if fmt = SPA_VIDEO_FORMAT_BGRA then SupportedPixelFormat.BGRA
  else if fmt = SPA_VIDEO_FORMAT_BGRx then SupportedPixelFormat.BGRX
  else if fmt = SPA_VIDEO_FORMAT_BGR then SupportedPixelFormat.BGR
  else cur

/-- The server ids the chain `mapChain` tests, in source order
(lines 63-74 of the screencapture variant). -/
def mappedIds : List Nat :=
  [SPA_VIDEO_FORMAT_RGB, SPA_VIDEO_FORMAT_RGBA, SPA_VIDEO_FORMAT_RGBx,
   SPA_VIDEO_FORMAT_BGRA, SPA_VIDEO_FORMAT_BGRx, SPA_VIDEO_FORMAT_BGR]

/-- `parseStreamFormat` of the screencapture variant (lines 33-77):
return the zero result if `spa_format_parse` fails, if the media type is not
video, or if the media subtype is not raw; otherwise copy
`info_raw.size.width` / `info_raw.size.height` into the result and run the
format if-chain. The C code calls `spa_format_video_raw_parse` without
checking its return value, so `payload_ok` is never consulted and the
`raw_` fields are read unconditionally. The `fprintf` log of the dimensions
is diagnostic only and not modelled. -/
def parseStreamFormat (param : SpaPod) : StreamFormat :=
  if param.header_ok = false then zeroStreamFormat
  else if param.media_type ≠ SPA_MEDIA_TYPE_video then zeroStreamFormat
  else if param.media_subtype ≠ SPA_MEDIA_SUBTYPE_raw then zeroStreamFormat
  else
    { format := mapChain param.raw_format zeroStreamFormat.format,
      width := param.raw_width,
      height := param.raw_height,
      padding := zeroStreamFormat.padding }

/-- The `StreamFormat` struct of the screencapture_backends variant
(its `pipewire_stream_extra.c` lines 17-22): the `format` field holds the raw
`enum spa_video_format` value. -/
structure BackendsStreamFormat where
  format : Nat
  width : Nat
  height : Nat
  padding : Nat
deriving DecidableEq

/-- `parseStreamFormat` of the screencapture_backends variant (lines 24-56):
identical gates, then `result.format = info_raw.format` — the server id is
copied unchanged, with no mapping chain. -/
def parseStreamFormatBackends (param : SpaPod) : BackendsStreamFormat :=
  if param.header_ok = false then { format := 0, width := 0, height := 0, padding := 0 }
  else if param.media_type ≠ SPA_MEDIA_TYPE_video then { format := 0, width := 0, height := 0, padding := 0 }
  else if param.media_subtype ≠ SPA_MEDIA_SUBTYPE_raw then { format := 0, width := 0, height := 0, padding := 0 }
  else
    { format := param.raw_format,
      width := param.raw_width,
      height := param.raw_height,
      padding := 0 }

/-- A `struct spa_rectangle`: the `SPA_RECTANGLE(width, height)` macro. -/
structure SpaRectangle where
  width : Nat
  height : Nat
deriving DecidableEq

/-- A `struct spa_fraction`: the `SPA_FRACTION(num, denom)` macro. -/
structure SpaFraction where
  num : Nat
  denom : Nat
deriving DecidableEq

/-- The structured object `spa_pod_builder_add_object` emits in
`buildPipewireParams`: media type and subtype ids, the
`SPA_POD_CHOICE_ENUM_Id` body (its first id is the default, the remaining ids
are the enumerated alternatives), and the `SPA_POD_CHOICE_RANGE_Rectangle` /
`SPA_POD_CHOICE_RANGE_Fraction` triples (default, min, max). -/
structure Offer where
  media_type : Nat
  media_subtype : Nat
  format_default : Nat
  format_choices : List Nat
  size_default : SpaRectangle
  size_min : SpaRectangle
  size_max : SpaRectangle
  framerate_default : SpaFraction
  framerate_min : SpaFraction
  framerate_max : SpaFraction
deriving DecidableEq

/-- The literal arguments a variant's `buildPipewireParams` passes for the
three choice fields: the id-choice body (default first, then the enumerated
alternatives) and the rectangle and fraction range triples. Each C variant is
this data; the builder call shape around it is shared. -/
structure CapabilityRange where
  format_default : Nat
  format_choices : List Nat
  size_default : SpaRectangle
  size_min : SpaRectangle
  size_max : SpaRectangle
  framerate_default : SpaFraction
  framerate_min : SpaFraction
  framerate_max : SpaFraction
deriving DecidableEq

/-- The shared `spa_pod_builder_add_object(builder, SPA_TYPE_OBJECT_Format,
SPA_PARAM_EnumFormat, ...)` call of both variants' `buildPipewireParams`:
it tags the object `(SPA_MEDIA_TYPE_video, SPA_MEDIA_SUBTYPE_raw)` and emits
the given choice bodies verbatim. The C performs no validation of the range
arguments. -/
def buildOffer (range : CapabilityRange) : Offer :=
  { media_type := SPA_MEDIA_TYPE_video,
    media_subtype := SPA_MEDIA_SUBTYPE_raw,
    format_default := range.format_default,
    format_choices := range.format_choices,
    size_default := range.size_default,
    size_min := range.size_min,
    size_max := range.size_max,
    framerate_default := range.framerate_default,
    framerate_min := range.framerate_min,
    framerate_max := range.framerate_max }

/-- The literals of the screencapture variant's `buildPipewireParams`
(lines 79-94): `SPA_POD_CHOICE_ENUM_Id(6, RGB, RGB, RGBA, RGBx, BGR, BGRx)`,
rectangle default `SPA_RECTANGLE(1080, 1920)` with bounds `(1,1)`-`(4096,4096)`,
fraction default `SPA_FRACTION(60, 1)` with bounds `(0,1)`-`(1000,1)`. -/
def broadRgbRange : CapabilityRange :=
  { format_default := SPA_VIDEO_FORMAT_RGB,
    format_choices := [SPA_VIDEO_FORMAT_RGB, SPA_VIDEO_FORMAT_RGBA,
      SPA_VIDEO_FORMAT_RGBx, SPA_VIDEO_FORMAT_BGR, SPA_VIDEO_FORMAT_BGRx],
    size_default := { width := 1080, height := 1920 },
    size_min := { width := 1, height := 1 },
    size_max := { width := 4096, height := 4096 },
    framerate_default := { num := 60, denom := 1 },
    framerate_min := { num := 0, denom := 1 },
    framerate_max := { num := 1000, denom := 1 } }

/-- `buildPipewireParams` of the screencapture variant (lines 79-94). -/
def buildPipewireParams : Offer := buildOffer broadRgbRange

/-- The literals of the screencapture_backends variant's `buildPipewireParams`
(lines 58-74): `SPA_POD_CHOICE_ENUM_Id(7, RGB, RGB, RGBA, RGBx, BGRx, YUY2,
I420)`, rectangle default `SPA_RECTANGLE(320, 240)` with bounds
`(1,1)`-`(4096,4096)`, fraction default `SPA_FRACTION(25, 1)` with bounds
`(0,1)`-`(1000,1)`. -/
def backendsRange : CapabilityRange :=
  { format_default := SPA_VIDEO_FORMAT_RGB,
    format_choices := [SPA_VIDEO_FORMAT_RGB, SPA_VIDEO_FORMAT_RGBA,
      SPA_VIDEO_FORMAT_RGBx, SPA_VIDEO_FORMAT_BGRx, SPA_VIDEO_FORMAT_YUY2,
      SPA_VIDEO_FORMAT_I420],
    size_default := { width := 320, height := 240 },
    size_min := { width := 1, height := 1 },
    size_max := { width := 4096, height := 4096 },
    framerate_default := { num := 25, denom := 1 },
    framerate_min := { num := 0, denom := 1 },
    framerate_max := { num := 1000, denom := 1 } }

/-- `buildPipewireParams` of the screencapture_backends variant (lines 58-74). -/
def buildPipewireParamsBackends : Offer := buildOffer backendsRange

/-- The server id each internal `SupportedPixelFormat` corresponds to, read
off the accepting branches of the source's `mapChain` (lines 63-74). -/
def toSpaId : SupportedPixelFormat → Nat
  | SupportedPixelFormat.RGBA => SPA_VIDEO_FORMAT_RGBA
  | SupportedPixelFormat.RGBX => SPA_VIDEO_FORMAT_RGBx
  | SupportedPixelFormat.RGB => SPA_VIDEO_FORMAT_RGB
  | SupportedPixelFormat.BGRA => SPA_VIDEO_FORMAT_BGRA
  | SupportedPixelFormat.BGRX => SPA_VIDEO_FORMAT_BGRx
  | SupportedPixelFormat.BGR => SPA_VIDEO_FORMAT_BGR

/-- Fixation of an offer into the pod a decoder sees, per spa semantics
(`spa_pod_fixate`): the header carries the offer's media tags, and every
choice field collapses to its default value. The header and payload parses of
a well-formed fixated offer succeed. -/
def fixateOffer (o : Offer) : SpaPod :=
  { header_ok := true,
    media_type := o.media_type,
    media_subtype := o.media_subtype,
    payload_ok := true,
    raw_format := o.format_default,
    raw_width := o.size_default.width,
    raw_height := o.size_default.height }

/-- Comparison `a <= b` of two spa fractions as rationals:
`a.num * b.denom <= b.num * a.denom`. -/
def fracLe (a b : SpaFraction) : Prop :=
  a.num * b.denom ≤ b.num * a.denom

/-- Validity of a capability range in the sense of the spec's `InvalidRange`
condition: min not above max on the rectangle dimensions and the frame rate,
and a non-empty pixel-format list. -/
def validRange (r : CapabilityRange) : Prop :=
  r.size_min.width ≤ r.size_max.width ∧
  r.size_min.height ≤ r.size_max.height ∧
  fracLe r.framerate_min r.framerate_max ∧
  r.format_default :: r.format_choices ≠ []

/-- The gates of `parseStreamFormat`, named after the source's steps. -/
inductive Gate
  | headerParse
  | mediaTypeCheck
  | mediaSubtypeCheck
  | payloadParse
  | formatMap
deriving DecidableEq

/-- The gates in the order the source runs them: `spa_format_parse`, the
media-type test, the media-subtype test, `spa_format_video_raw_parse`, the
format if-chain. -/
def gateOrder : List Gate :=
  [Gate.headerParse, Gate.mediaTypeCheck, Gate.mediaSubtypeCheck,
   Gate.payloadParse, Gate.formatMap]

/-- Instrumentation of `parseStreamFormat`'s control flow: the list of gates
the source executes on a given pod, one early-return branch per gate, in
source order (lines 44-74 of the screencapture variant). -/
def parseTrace (param : SpaPod) : List Gate :=
  if param.header_ok = false then [Gate.headerParse]
  else if param.media_type ≠ SPA_MEDIA_TYPE_video then
    [Gate.headerParse, Gate.mediaTypeCheck]
  else if param.media_subtype ≠ SPA_MEDIA_SUBTYPE_raw then
    [Gate.headerParse, Gate.mediaTypeCheck, Gate.mediaSubtypeCheck]
  else gateOrder

/-- A format id outside `mappedIds` falls through every branch of the
source's if-chain, leaving `result.format` at its prior value. -/
theorem mapChain_not_mem (fmt : Nat) (cur : SupportedPixelFormat)
    (h : fmt ∉ mappedIds) : mapChain fmt cur = cur := by
  simp only [mappedIds, List.mem_cons, List.not_mem_nil, or_false, not_or] at h
  obtain ⟨h1, h2, h3, h4, h5, h6⟩ := h
  simp only [mapChain, if_neg h1, if_neg h2, if_neg h3, if_neg h4, if_neg h5, if_neg h6]

/-- C1 counterexample: a (video, raw) pod selecting `SPA_VIDEO_FORMAT_YUY2`
(640x480), an id not in the mapping chain, parses to the very record a genuine
RGBA selection at the same size yields — the unmapped id silently defaults to
the supported format `SUPPORTED_PIXEL_FORMAT_RGBA` (the zero enum value);
no Unknown value exists in `SupportedPixelFormat`. -/
theorem c1_counterexample :
    parseStreamFormat
        { header_ok := true, media_type := SPA_MEDIA_TYPE_video,
          media_subtype := SPA_MEDIA_SUBTYPE_raw, payload_ok := true,
          raw_format := SPA_VIDEO_FORMAT_YUY2, raw_width := 640, raw_height := 480 }
      = { format := SupportedPixelFormat.RGBA, width := 640, height := 480, padding := 0 } ∧
    parseStreamFormat
        { header_ok := true, media_type := SPA_MEDIA_TYPE_video,
          media_subtype := SPA_MEDIA_SUBTYPE_raw, payload_ok := true,
          raw_format := SPA_VIDEO_FORMAT_YUY2, raw_width := 640, raw_height := 480 }
      = parseStreamFormat
          { header_ok := true, media_type := SPA_MEDIA_TYPE_video,
            media_subtype := SPA_MEDIA_SUBTYPE_raw, payload_ok := true,
            raw_format := SPA_VIDEO_FORMAT_RGBA, raw_width := 640, raw_height := 480 } :=
  ⟨rfl, rfl⟩

/-- C1 (amended): for every server-native format id not in the mapping chain,
parsing a (video, raw) pod selecting it returns the parsed width and height,
but the format field is left at its zero initialisation —
`SUPPORTED_PIXEL_FORMAT_RGBA`, a silent default to a supported format rather
than an explicit Unknown result; no fault occurs (the function is total). -/
theorem c1_unmapped_silently_defaults (fmt w h : Nat) (hm : fmt ∉ mappedIds) :
    parseStreamFormat
        { header_ok := true, media_type := SPA_MEDIA_TYPE_video,
          media_subtype := SPA_MEDIA_SUBTYPE_raw, payload_ok := true,
          raw_format := fmt, raw_width := w, raw_height := h }
      = { format := SupportedPixelFormat.RGBA, width := w, height := h, padding := 0 } := by
  unfold parseStreamFormat
  rw [if_neg (by simp), if_neg (by simp), if_neg (by simp)]
  rw [mapChain_not_mem fmt zeroStreamFormat.format hm]
  rfl

/-- C1 witness: the amended theorem applied at the concrete unmapped id
`SPA_VIDEO_FORMAT_YUY2` and size 640x480. -/
theorem c1_unmapped_silently_defaults_witness :
    SPA_VIDEO_FORMAT_YUY2 ∉ mappedIds ∧
    parseStreamFormat
        { header_ok := true, media_type := SPA_MEDIA_TYPE_video,
          media_subtype := SPA_MEDIA_SUBTYPE_raw, payload_ok := true,
          raw_format := SPA_VIDEO_FORMAT_YUY2, raw_width := 640, raw_height := 480 }
      = { format := SupportedPixelFormat.RGBA, width := 640, height := 480, padding := 0 } :=
  ⟨by decide, c1_unmapped_silently_defaults SPA_VIDEO_FORMAT_YUY2 640 480 (by decide)⟩

/-- C2: a pod tagged (video, raw) whose video-raw payload parse fails
(`payload_ok := false`, the `raw_` fields modelling the garbage the
uninitialised `info_raw` holds) is not rejected: the source ignores the
return value of `spa_format_video_raw_parse`, so parse returns a StreamFormat
built from the garbage fields — here width and height 3735928559 — instead of
a Malformed error. -/
theorem c2_garbage_geometry_on_failed_payload :
    parseStreamFormat
        { header_ok := true, media_type := SPA_MEDIA_TYPE_video,
          media_subtype := SPA_MEDIA_SUBTYPE_raw, payload_ok := false,
          raw_format := SPA_VIDEO_FORMAT_RGB,
          raw_width := 3735928559, raw_height := 3735928559 }
      = { format := SupportedPixelFormat.RGB,
          width := 3735928559, height := 3735928559, padding := 0 } :=
  rfl

/-- C3 counterexample: a pod whose header parse fails, a pod tagged
(audio, raw), and a pod tagged video with a non-raw subtype all parse to the
same zero-valued StreamFormat — the three outcomes are not explicit,
distinguishable error values. -/
theorem c3_counterexample :
    parseStreamFormat
        { header_ok := false, media_type := SPA_MEDIA_TYPE_video,
          media_subtype := SPA_MEDIA_SUBTYPE_raw, payload_ok := true,
          raw_format := SPA_VIDEO_FORMAT_RGB, raw_width := 640, raw_height := 480 }
      = parseStreamFormat
          { header_ok := true, media_type := SPA_MEDIA_TYPE_audio,
            media_subtype := SPA_MEDIA_SUBTYPE_raw, payload_ok := true,
            raw_format := SPA_VIDEO_FORMAT_RGB, raw_width := 640, raw_height := 480 } ∧
    parseStreamFormat
        { header_ok := true, media_type := SPA_MEDIA_TYPE_audio,
          media_subtype := SPA_MEDIA_SUBTYPE_raw, payload_ok := true,
          raw_format := SPA_VIDEO_FORMAT_RGB, raw_width := 640, raw_height := 480 }
      = parseStreamFormat
          { header_ok := true, media_type := SPA_MEDIA_TYPE_video,
            media_subtype := 0, payload_ok := true,
            raw_format := SPA_VIDEO_FORMAT_RGB, raw_width := 640, raw_height := 480 } ∧
    parseStreamFormat
        { header_ok := false, media_type := SPA_MEDIA_TYPE_video,
          media_subtype := SPA_MEDIA_SUBTYPE_raw, payload_ok := true,
          raw_format := SPA_VIDEO_FORMAT_RGB, raw_width := 640, raw_height := 480 }
      = zeroStreamFormat :=
  ⟨rfl, rfl, rfl⟩

/-- C3 (amended): whenever any of the three gates fails — header parse, media
type not video, media subtype not raw — parse returns the one identical
zero-valued StreamFormat; the three outcomes are not distinguishable from
each other (nor from a genuine 0x0 RGBA selection). -/
theorem c3_gates_return_same_zero_result (pod : SpaPod)
    (h : pod.header_ok = false ∨ pod.media_type ≠ SPA_MEDIA_TYPE_video ∨
         pod.media_subtype ≠ SPA_MEDIA_SUBTYPE_raw) :
    parseStreamFormat pod = zeroStreamFormat := by
  unfold parseStreamFormat
  split
  · rfl
  next h1 =>
    split
    · rfl
    next h2 =>
      split
      · rfl
      next h3 =>
        rcases h with h | h | h
        · exact absurd h h1
        · exact absurd h h2
        · exact absurd h h3

/-- C3 witness: the amended theorem applied to a concrete (audio, raw) pod. -/
theorem c3_gates_return_same_zero_result_witness :
    parseStreamFormat
        { header_ok := true, media_type := SPA_MEDIA_TYPE_audio,
          media_subtype := SPA_MEDIA_SUBTYPE_raw, payload_ok := true,
          raw_format := SPA_VIDEO_FORMAT_RGB, raw_width := 640, raw_height := 480 }
      = zeroStreamFormat :=
  c3_gates_return_same_zero_result
    { header_ok := true, media_type := SPA_MEDIA_TYPE_audio,
      media_subtype := SPA_MEDIA_SUBTYPE_raw, payload_ok := true,
      raw_format := SPA_VIDEO_FORMAT_RGB, raw_width := 640, raw_height := 480 }
    (Or.inr (Or.inl (by decide)))

/-- C4: the broad-RGB variant's offer defaults to pixel format
`SPA_VIDEO_FORMAT_RGB` and rectangle 1080x1920, and parsing a (video, raw)
pod selecting BGRA at 1920x1080 yields
`StreamFormat{BGRA, 1920, 1080}`. -/
theorem c4_broad_scenario :
    buildPipewireParams.format_default = SPA_VIDEO_FORMAT_RGB ∧
    buildPipewireParams.size_default = { width := 1080, height := 1920 } ∧
    parseStreamFormat
        { header_ok := true, media_type := SPA_MEDIA_TYPE_video,
          media_subtype := SPA_MEDIA_SUBTYPE_raw, payload_ok := true,
          raw_format := SPA_VIDEO_FORMAT_BGRA, raw_width := 1920, raw_height := 1080 }
      = { format := SupportedPixelFormat.BGRA, width := 1920, height := 1080, padding := 0 } :=
  ⟨rfl, rfl, rfl⟩

/-- C5: round-trip law. For every valid capability range whose default format
is the server id of a supported internal format `f`, fixating the offer built
from it and parsing the result yields a StreamFormat whose pixel format is
exactly `f` (the configured default) and whose width and height are the
configured default rectangle's. -/
theorem c5_round_trip (f : SupportedPixelFormat) (alts : List Nat)
    (sd smin smax : SpaRectangle) (fd fmin fmax : SpaFraction)
    (hvalid : validRange
      { format_default := toSpaId f, format_choices := alts,
        size_default := sd, size_min := smin, size_max := smax,
        framerate_default := fd, framerate_min := fmin, framerate_max := fmax }) :
    parseStreamFormat (fixateOffer (buildOffer
      { format_default := toSpaId f, format_choices := alts,
        size_default := sd, size_min := smin, size_max := smax,
        framerate_default := fd, framerate_min := fmin, framerate_max := fmax }))
      = { format := f, width := sd.width, height := sd.height, padding := 0 } := by
  cases f <;> rfl

/-- C5 witness: the round trip at the broad-RGB variant's own configuration,
with the default format expressed as the internal `RGB`. -/
theorem c5_round_trip_witness :
    validRange
      { format_default := toSpaId SupportedPixelFormat.RGB,
        format_choices := broadRgbRange.format_choices,
        size_default := { width := 1080, height := 1920 },
        size_min := { width := 1, height := 1 },
        size_max := { width := 4096, height := 4096 },
        framerate_default := { num := 60, denom := 1 },
        framerate_min := { num := 0, denom := 1 },
        framerate_max := { num := 1000, denom := 1 } } ∧
    parseStreamFormat (fixateOffer (buildOffer
      { format_default := toSpaId SupportedPixelFormat.RGB,
        format_choices := broadRgbRange.format_choices,
        size_default := { width := 1080, height := 1920 },
        size_min := { width := 1, height := 1 },
        size_max := { width := 4096, height := 4096 },
        framerate_default := { num := 60, denom := 1 },
        framerate_min := { num := 0, denom := 1 },
        framerate_max := { num := 1000, denom := 1 } }))
      = { format := SupportedPixelFormat.RGB, width := 1080, height := 1920, padding := 0 } :=
  ⟨by unfold validRange fracLe; decide,
   c5_round_trip SupportedPixelFormat.RGB broadRgbRange.format_choices
     { width := 1080, height := 1920 } { width := 1, height := 1 }
     { width := 4096, height := 4096 } { num := 60, denom := 1 }
     { num := 0, denom := 1 } { num := 1000, denom := 1 }
     (by unfold validRange fracLe; decide)⟩

/-- C6: on every pod whose header parses but whose media type is not video,
the control flow stops at the media-type gate: the executed-gate trace is
exactly header parse then media-type check, the payload-parse gate is not in
the trace, and the parse result does not depend on any payload field (the
payload is never read). Moreover, on every pod whatsoever, the trace is an
initial segment of the fixed gate order — no gate is skipped or reordered. -/
theorem c6_media_type_gate (pod : SpaPod) (hok : pod.header_ok = true)
    (hmt : pod.media_type ≠ SPA_MEDIA_TYPE_video) :
    parseTrace pod = [Gate.headerParse, Gate.mediaTypeCheck] ∧
    Gate.payloadParse ∉ parseTrace pod ∧
    (∀ pok fmt w h, parseStreamFormat
        { pod with payload_ok := pok, raw_format := fmt, raw_width := w, raw_height := h }
      = parseStreamFormat pod) ∧
    (∀ q : SpaPod, ∃ rest, parseTrace q ++ rest = gateOrder) := by
  refine ⟨?_, ?_, ?_, ?_⟩
  · simp [parseTrace, hok, hmt]
  · simp [parseTrace, hok, hmt]
  · intro pok fmt w h
    simp [parseStreamFormat, hok, hmt]
  · intro q
    unfold parseTrace gateOrder
    split
    · exact ⟨[Gate.mediaTypeCheck, Gate.mediaSubtypeCheck, Gate.payloadParse, Gate.formatMap], rfl⟩
    · split
      · exact ⟨[Gate.mediaSubtypeCheck, Gate.payloadParse, Gate.formatMap], rfl⟩
      · split
        · exact ⟨[Gate.payloadParse, Gate.formatMap], rfl⟩
        · exact ⟨[], rfl⟩

/-- C6 witness: the gate theorem applied to a concrete (audio, raw) pod. -/
theorem c6_media_type_gate_witness :
    parseTrace
        { header_ok := true, media_type := SPA_MEDIA_TYPE_audio,
          media_subtype := SPA_MEDIA_SUBTYPE_raw, payload_ok := true,
          raw_format := 0, raw_width := 0, raw_height := 0 }
      = [Gate.headerParse, Gate.mediaTypeCheck] ∧
    Gate.payloadParse ∉ parseTrace
        { header_ok := true, media_type := SPA_MEDIA_TYPE_audio,
          media_subtype := SPA_MEDIA_SUBTYPE_raw, payload_ok := true,
          raw_format := 0, raw_width := 0, raw_height := 0 } ∧
    (∀ pok fmt w h, parseStreamFormat
        { header_ok := true, media_type := SPA_MEDIA_TYPE_audio,
          media_subtype := SPA_MEDIA_SUBTYPE_raw, payload_ok := pok,
          raw_format := fmt, raw_width := w, raw_height := h }
      = parseStreamFormat
          { header_ok := true, media_type := SPA_MEDIA_TYPE_audio,
            media_subtype := SPA_MEDIA_SUBTYPE_raw, payload_ok := true,
            raw_format := 0, raw_width := 0, raw_height := 0 }) ∧
    (∀ q : SpaPod, ∃ rest, parseTrace q ++ rest = gateOrder) :=
  c6_media_type_gate
    { header_ok := true, media_type := SPA_MEDIA_TYPE_audio,
      media_subtype := SPA_MEDIA_SUBTYPE_raw, payload_ok := true,
      raw_format := 0, raw_width := 0, raw_height := 0 }
    rfl (by decide)

/-- C7 counterexample: a configuration with rectangle min (4096, 4096) above
max (1, 1) and frame-rate min 1000/1 above max 0/1 is not a valid range, yet
the builder does not fail: it produces an ordinary offer embedding the
inverted bounds verbatim — no InvalidRange check exists in the source. -/
theorem c7_counterexample :
    ¬ validRange
        { format_default := SPA_VIDEO_FORMAT_RGB, format_choices := [],
          size_default := { width := 0, height := 0 },
          size_min := { width := 4096, height := 4096 },
          size_max := { width := 1, height := 1 },
          framerate_default := { num := 60, denom := 1 },
          framerate_min := { num := 1000, denom := 1 },
          framerate_max := { num := 0, denom := 1 } } ∧
    buildOffer
        { format_default := SPA_VIDEO_FORMAT_RGB, format_choices := [],
          size_default := { width := 0, height := 0 },
          size_min := { width := 4096, height := 4096 },
          size_max := { width := 1, height := 1 },
          framerate_default := { num := 60, denom := 1 },
          framerate_min := { num := 1000, denom := 1 },
          framerate_max := { num := 0, denom := 1 } }
      = { media_type := SPA_MEDIA_TYPE_video, media_subtype := SPA_MEDIA_SUBTYPE_raw,
          format_default := SPA_VIDEO_FORMAT_RGB, format_choices := [],
          size_default := { width := 0, height := 0 },
          size_min := { width := 4096, height := 4096 },
          size_max := { width := 1, height := 1 },
          framerate_default := { num := 60, denom := 1 },
          framerate_min := { num := 1000, denom := 1 },
          framerate_max := { num := 0, denom := 1 } } := by
  constructor
  · unfold validRange fracLe
    decide
  · rfl

/-- C7 (amended): the builder performs no InvalidRange validation and cannot
fail — it emits a (video, raw) offer for every configuration — but the
hard-coded capability ranges of both variants do satisfy min not above max on
the rectangle dimensions and the frame rate, and list at least one pixel
format, so the InvalidRange condition never arises for the configurations
the code actually uses. -/
theorem c7_hardcoded_ranges_valid :
    validRange broadRgbRange ∧ validRange backendsRange ∧
    ∀ r : CapabilityRange, (buildOffer r).media_type = SPA_MEDIA_TYPE_video ∧
      (buildOffer r).media_subtype = SPA_MEDIA_SUBTYPE_raw := by
  refine ⟨?_, ?_, fun r => ⟨rfl, rfl⟩⟩
  · unfold validRange fracLe
    decide
  · unfold validRange fracLe
    decide

/-- C8: the offers of the two variants are both tagged (video, raw), share
the same rectangle bounds (1,1)-(4096,4096) and frame-rate bounds
0/1-1000/1, and differ exactly in the literal default rectangle, default
frame rate, and pixel-format choice list. -/
theorem c8_variants_agree :
    buildPipewireParams.media_type = SPA_MEDIA_TYPE_video ∧
    buildPipewireParamsBackends.media_type = SPA_MEDIA_TYPE_video ∧
    buildPipewireParams.media_subtype = SPA_MEDIA_SUBTYPE_raw ∧
    buildPipewireParamsBackends.media_subtype = SPA_MEDIA_SUBTYPE_raw ∧
    buildPipewireParams.size_min = buildPipewireParamsBackends.size_min ∧
    buildPipewireParams.size_min = { width := 1, height := 1 } ∧
    buildPipewireParams.size_max = buildPipewireParamsBackends.size_max ∧
    buildPipewireParams.size_max = { width := 4096, height := 4096 } ∧
    buildPipewireParams.framerate_min = buildPipewireParamsBackends.framerate_min ∧
    buildPipewireParams.framerate_min = { num := 0, denom := 1 } ∧
    buildPipewireParams.framerate_max = buildPipewireParamsBackends.framerate_max ∧
    buildPipewireParams.framerate_max = { num := 1000, denom := 1 } ∧
    buildPipewireParams.size_default ≠ buildPipewireParamsBackends.size_default ∧
    buildPipewireParams.framerate_default ≠ buildPipewireParamsBackends.framerate_default ∧
    buildPipewireParams.format_choices ≠ buildPipewireParamsBackends.format_choices := by
  decide

/-- C9: every id in the broad-RGB offer's enumerated format choice (default
and alternatives) is genuinely matched by the parser's mapping chain — the
chain's output on it is independent of the fall-through value, so a server
selecting any advertised format always maps to a supported internal value.
The converse fails: the chain also matches `SPA_VIDEO_FORMAT_BGRA` (mapping
it to the internal BGRA), an id the offer does not advertise. -/
theorem c9_advertised_formats_mapped :
    (∀ fmt ∈ buildPipewireParams.format_default :: buildPipewireParams.format_choices,
       ∀ cur cur' : SupportedPixelFormat, mapChain fmt cur = mapChain fmt cur') ∧
    (∀ cur : SupportedPixelFormat,
       mapChain SPA_VIDEO_FORMAT_BGRA cur = SupportedPixelFormat.BGRA) ∧
    SPA_VIDEO_FORMAT_BGRA ∉
      buildPipewireParams.format_default :: buildPipewireParams.format_choices := by
  decide

/-- C10: in the screencapture_backends variant, every pod that passes the
header, media-type, and subtype gates parses to a record whose format field
is the server's native id copied unchanged (and whose width and height are
the payload's) — an identity mapping with no supported-set restriction and
no distinct unsupported result. -/
theorem c10_identity_format_copy (pod : SpaPod) (hok : pod.header_ok = true)
    (hmt : pod.media_type = SPA_MEDIA_TYPE_video)
    (hms : pod.media_subtype = SPA_MEDIA_SUBTYPE_raw) :
    parseStreamFormatBackends pod
      = { format := pod.raw_format, width := pod.raw_width,
          height := pod.raw_height, padding := 0 } := by
  simp [parseStreamFormatBackends, hok, hmt, hms]

/-- C10 witness: the identity-copy theorem at a concrete (video, raw) pod
selecting `SPA_VIDEO_FORMAT_YUY2`, an id the broad variant would not even
support. -/
theorem c10_identity_format_copy_witness :
    parseStreamFormatBackends
        { header_ok := true, media_type := SPA_MEDIA_TYPE_video,
          media_subtype := SPA_MEDIA_SUBTYPE_raw, payload_ok := true,
          raw_format := SPA_VIDEO_FORMAT_YUY2, raw_width := 640, raw_height := 480 }
      = { format := SPA_VIDEO_FORMAT_YUY2, width := 640, height := 480, padding := 0 } :=
  c10_identity_format_copy
    { header_ok := true, media_type := SPA_MEDIA_TYPE_video,
      media_subtype := SPA_MEDIA_SUBTYPE_raw, payload_ok := true,
      raw_format := SPA_VIDEO_FORMAT_YUY2, raw_width := 640, raw_height := 480 }
    rfl rfl rfl

end Reel
